import Mathlib

/-!
Shallow embedding of `src/js/internal/child_process.ts` (the IPC channel
protocol controller installed by `setupChannel`): the JavaScript value
model needed by the code's dynamic checks, the mutable channel state held
on the target object, the `_send`/`send` functions, the `internalMessage`
handler, the disconnect lifecycle, the pending-message buffer flushed on
listener registration, and the `Control` reference counter.

External collaborators (the serialization codec, the raw transport, the
socket registry) are modelled as opaque inputs: a `WriteEnv` tells the
embedding what `writeChannelMessage` reported, and transport writes /
handle closes / event emissions are recorded as an explicit effect list,
split into synchronous effects and effects deferred via `process.nextTick`
or write-completion callbacks.
-/

namespace ChildProcess

/-- Kind of a wrapper object passed as the `handle` argument, as decided by
the `instanceof` chain in `_send` (lines 225-237 of the source).  The
`net.Native` / `dgram.Native` branches are commented out in this repository,
so raw native stream handles (`rawNative`) match no branch. -/
inductive HandleKind where
  | netSocket
  | netServer
  | dgramSocket
  | rawNative
  | other
deriving DecidableEq, Repr

/-- A handle wrapper object.  `raw` is the underlying native handle id
(`socket._handle`, `server._handle`, `socket[kStateSymbol].handle`);
`none` models a wrapper whose native handle is already gone (e.g. a socket
that was already sent once). -/
structure HandleObj where
  kind : HandleKind
  raw : Option Nat
deriving DecidableEq, Repr

/-- JavaScript values, restricted to the shapes the channel code inspects:
primitives, functions (identified by an id), arrays (only their arrayness
matters, for `validateObject`), handle wrapper objects, and plain objects
as association lists of fields (first binding wins, like the result of a
spread that puts overriding fields first). -/
inductive JSVal where
  | undefined
  | null
  | bool (b : Bool)
  | num (n : Int)
  | str (s : String)
  | func (id : Nat)
  | arr (id : Nat)
  | handle (h : HandleObj)
  | obj (fields : List (String × JSVal))
deriving Repr

/-- JavaScript `typeof`. Note `typeof null` is `"object"`. -/
def typeof : JSVal → String
  | .undefined => "undefined"
  | .null => "object"
  | .bool _ => "boolean"
  | .num _ => "number"
  | .str _ => "string"
  | .func _ => "function"
  | .arr _ => "object"
  | .handle _ => "object"
  | .obj _ => "object"

/-- JavaScript truthiness. -/
def truthy : JSVal → Bool
  | .undefined => false
  | .null => false
  | .bool b => b
  | .num n => n != 0
  | .str s => s != ""
  | .func _ => true
  | .arr _ => true
  | .handle _ => true
  | .obj _ => true

def JSVal.isUndefined : JSVal → Bool
  | .undefined => true
  | _ => false

def JSVal.isNullV : JSVal → Bool
  | .null => true
  | _ => false

def JSVal.isArr : JSVal → Bool
  | .arr _ => true
  | _ => false

/-- Property read `v[k]` on the value shapes the code reads fields from:
plain objects look the field up (first binding wins), everything else
yields `undefined`.  The code only dereferences fields behind truthiness
or `typeof` guards, so the `null`/`undefined` throw cases are unreachable
where this is used. -/
def getField : JSVal → String → JSVal
  | .obj fields, k =>
    match fields.find? (fun p => p.1 == k) with
    | some p => p.2
    | none => .undefined
  | _, _ => .undefined

/-- `message.cmd === s` for a string literal `s`. -/
def cmdIs (m : JSVal) (s : String) : Bool :=
  match getField m "cmd" with
  | .str t => t == s
  | _ => false

def isFunc (v : JSVal) : Bool := typeof v == "function"

/-- `INTERNAL_PREFIX` (source line 391). -/
def nodePrefixStr : String := "NODE_"

/-- `isInternal` (source lines 392-400): non-null, `typeof` object, `cmd`
field a string strictly longer than the prefix whose slice
`[0, prefixLength)` equals the prefix. -/
def isInternal (m : JSVal) : Bool :=
  !m.isNullV && (typeof m == "object") &&
    (match getField m "cmd" with
     | .str s =>
       decide (nodePrefixStr.length < s.length) &&
         (s.take nodePrefixStr.length == nodePrefixStr)
     | _ => false)

/-- `MAX_HANDLE_RETRANSMISSIONS` (source line 28). -/
def MAX_HANDLE_RETRANSMISSIONS : Nat := 3

/-- What the external transport reported for a `writeChannelMessage` call:
the error code (`0` = success) and whether the write completed
asynchronously (`streamBaseState[kLastWriteWasAsync]`). -/
structure WriteEnv where
  writeErr : Int
  wasAsync : Bool
deriving DecidableEq, Repr

/-- One entry of `target._handleQueue` (pushed at source lines 240-247 and
267-274). -/
structure QueuedSend where
  message : JSVal
  handle : JSVal
  options : JSVal
  callback : JSVal
deriving Repr

/-- `target._pendingMessage` (stored by the `net.Socket` `postSend`
strategy, source lines 511-526).  `message` is the `NODE_HANDLE` envelope
that was written, `handle` the native handle that was sent. -/
structure PendingMsg where
  callback : JSVal
  message : JSVal
  handle : JSVal
  options : JSVal
  retransmissions : Nat
deriving Repr

/-- The mutable protocol state `setupChannel` keeps on the target:
`connected`, the non-null-ness of `target.channel`, `_handleQueue`,
`_pendingMessage`, plus the transport-owned `writeQueueSize` and
`buffering` flags the code reads. -/
structure ChanState where
  connected : Bool
  channelPresent : Bool
  handleQueue : Option (List QueuedSend)
  pendingMessage : Option PendingMsg
  writeQueueSize : Nat
  buffering : Bool
deriving Repr

/-- The error kinds the channel code can raise or report. -/
inductive ErrKind where
  | channelClosed
  | disconnectedErr
  | invalidHandleType
  | missingArgs (name : String)
  | invalidArgType (name : String)
  | writeFailure (errno : Int)
  | jsTypeError
deriving DecidableEq, Repr

/-- Observable effects of the channel code.  `write` is a successful
`writeChannelMessage`; `callCallback`/`emitError` record how a result is
reported; effects listed as deferred happen on a later tick
(`process.nextTick`) or on write completion, never synchronously. -/
inductive Eff where
  | write (message : JSVal) (nativeHandle : Option Nat)
  | closeHandle (h : JSVal)
  | warn (name : String)
  | ctlRefCounted
  | ctlUnrefCounted
  | channelClose
  | emitError (e : ErrKind)
  | callCallback (cb : JSVal) (err : Option ErrKind)
  | emitDisconnect
  | reconstructHandle (ty : String)
deriving Repr

/-- Result of a `send`/`_send` call: either a synchronous throw (the state
is unchanged at every throw site, but we carry it for uniformity) or a
boolean return with the new state, the synchronous effects and the
deferred effects. -/
inductive SendResult where
  | thrown (e : ErrKind) (st : ChanState) (sync : List Eff)
  | ok (ret : Bool) (st : ChanState) (sync : List Eff) (deferred : List Eff)
deriving Repr

/-- Result of an event handler (`internalMessage` handler, `disconnect`):
like `SendResult` but with no return value. -/
inductive HandlerResult where
  | thrown (e : ErrKind) (st : ChanState) (sync : List Eff) (deferred : List Eff)
  | done (st : ChanState) (sync : List Eff) (deferred : List Eff)
deriving Repr

/-- The `instanceof` chain of `_send` (source lines 225-237): which
registry key a wrapper object resolves to.  `none` means the final `else`
branch, i.e. `ERR_INVALID_HANDLE_TYPE` is thrown.  The `net.Native` and
`dgram.Native` branches are commented out in this repository, so native
stream handles resolve to `none`. -/
def instanceType (h : JSVal) : Option String :=
  match h with
  | .handle ho =>
    match ho.kind with
    | .netSocket => some "net.Socket"
    | .netServer => some "net.Server"
    | .dgramSocket => some "dgram.Socket"
    | .rawNative => none
    | .other => none
  | _ => none

/-- The `send` strategy of the conversion registry (source lines 455-457,
467-508, 563-566): extract the native handle from the wrapper.  All three
registered strategies return the wrapper's underlying native handle
(`server._handle`, `socket._handle` — with an early `return` when it is
already gone — and `socket[kStateSymbol].handle`); the socket-list and
keep-open side effects on the wrapper involve external collaborators and
do not affect the channel state modelled here. -/
def convSendStrategy (ty : String) (h : JSVal) : Option Nat :=
  match h with
  | .handle ho =>
    match ty with
    | "net.Socket" => ho.raw
    | "net.Server" => ho.raw
    | "dgram.Socket" => ho.raw
    | _ => none
  | _ => none

/-- Only the `net.Socket` strategy has a `postSend` (source line 511). -/
def hasPostSendStrategy (ty : String) : Bool := ty == "net.Socket"

/-- The registry keys whose strategy has a `got` (receive) function:
`net.Server`, `net.Socket`, `dgram.Socket` (source lines 452-577). -/
def gotRegistered (ty : String) : Bool :=
  ty == "net.Server" || ty == "net.Socket" || ty == "dgram.Socket"

def optKeepOpen (o : JSVal) : Bool := truthy (getField o "keepOpen")

def optSwallowErrors (o : JSVal) : Bool := truthy (getField o "swallowErrors")

/-- `typeof message` is one of the serializable categories `_send` accepts
(source lines 200-207). -/
def sendTypeOk (m : JSVal) : Bool :=
  typeof m == "string" || typeof m == "object" ||
    typeof m == "number" || typeof m == "boolean"

/-- The bypass condition of the non-handle queueing branch (source line
265): `message && (message.cmd === "NODE_HANDLE_ACK" || message.cmd ===
"NODE_HANDLE_NACK")`. -/
def isAckNackMsg (m : JSVal) : Bool :=
  truthy m && (cmdIs m "NODE_HANDLE_ACK" || cmdIs m "NODE_HANDLE_NACK")

/-- Success-callback scheduling: `process.nextTick(callback, null)` or the
async-write completion callback, when a callback function was supplied. -/
def cbEffOk (callback : JSVal) : List Eff :=
  if isFunc callback then [.callCallback callback none] else []

/-- Queue initialization on a successful handle write (source line 284):
`if (!this._handleQueue) this._handleQueue = []`. -/
def queueInitState (st : ChanState) (outHandle : Option Nat) : ChanState :=
  match outHandle with
  | some _ =>
    if st.handleQueue.isNone then { st with handleQueue := some [] } else st
  | none => st

/-- The state after a successful write: queue initialization plus the
`net.Socket` `postSend` storing `_pendingMessage` (source lines 283-286 and
511-526; the entry records the written envelope and the native handle). -/
def writeSuccessState (st : ChanState) (tyOpt : Option String)
    (outMsg : JSVal) (outHandle : Option Nat)
    (options callback : JSVal) : ChanState :=
  match outHandle, tyOpt with
  | some n, some ty =>
    if hasPostSendStrategy ty && !optKeepOpen options then
      let p : PendingMsg :=
        ⟨callback, outMsg, .handle ⟨.rawNative, some n⟩, options, 0⟩
      { queueInitState st outHandle with pendingMessage := some p }
    else queueInitState st outHandle
  | _, _ => queueInitState st outHandle

/-- The `postSend` failure path (source line 299): close the native handle
(only the `net.Socket` strategy has a `postSend`, and it only closes when a
handle was actually sent and `keepOpen` is unset). -/
def writeFailCloseEffs (tyOpt : Option String) (outHandle : Option Nat)
    (options : JSVal) : List Eff :=
  match outHandle, tyOpt with
  | some n, some ty =>
    if hasPostSendStrategy ty && !optKeepOpen options then
      [.closeHandle (.handle ⟨.rawNative, some n⟩)]
    else []
  | _, _ => []

/-- The write phase of `_send` (source lines 277-312): hand the message
(and native handle, if any) to `writeChannelMessage`, then on success
initialize the handle queue and run the strategy's `postSend` (which for
`net.Socket` stores `_pendingMessage`), schedule the callback; on failure
run `postSend` without a target (closing the native handle) and report the
write error unless `swallowErrors`.  Returns
`channel.writeQueueSize < 65536 * 2`. -/
def writePhase (st : ChanState) (env : WriteEnv) (tyOpt : Option String)
    (outMsg : JSVal) (outHandle : Option Nat)
    (options callback : JSVal) : SendResult :=
  if env.writeErr == 0 then
    let st2 := writeSuccessState st tyOpt outMsg outHandle options callback
    let sync := [Eff.write outMsg outHandle] ++
      (if env.wasAsync then [Eff.ctlRefCounted] else [])
    let deferred := (if env.wasAsync then [Eff.ctlUnrefCounted] else []) ++
      cbEffOk callback
    .ok (st2.writeQueueSize < 65536 * 2) st2 sync deferred
  else
    let errEffs : List Eff :=
      if optSwallowErrors options then []
      else if isFunc callback then
        [.callCallback callback (some (.writeFailure env.writeErr))]
      else [.emitError (.writeFailure env.writeErr)]
    .ok (st.writeQueueSize < 65536 * 2) st
      (writeFailCloseEffs tyOpt outHandle options) errEffs

/-- `target._send` (source lines 191-313).  Validates the message, applies
the legacy boolean-options signature, wraps and type-tags handle-carrying
messages (throwing `ERR_INVALID_HANDLE_TYPE` when no `instanceof` branch
matches), queues the send when `_handleQueue` exists (except plain
ACK/NACK messages, which bypass the queue), and otherwise writes. -/
def _send (st : ChanState) (env : WriteEnv)
    (message handle options callback : JSVal) : SendResult :=
  if message.isUndefined then .thrown (.missingArgs "message") st []
  else if !sendTypeOk message then .thrown (.invalidArgType "message") st []
  else
    let options := if typeof options == "boolean" then
        JSVal.obj [("swallowErrors", options)]
      else options
    if truthy handle then
      match instanceType handle with
      | none => .thrown .invalidHandleType st []
      | some ty =>
        match st.handleQueue with
        | some q =>
          -- Queue-up message and handle if we haven't received ACK yet;
          -- the entry stores the unwrapped `message.msg`.
          let q2 := q ++ [⟨message, handle, options, callback⟩]
          .ok (q2.length == 1) { st with handleQueue := some q2 } [] []
        | none =>
          let wrapped := JSVal.obj
            [("cmd", .str "NODE_HANDLE"), ("type", .str ty), ("msg", message)]
          match convSendStrategy ty handle with
          | none =>
            -- Handle was sent twice or has no native handle: send the
            -- text without the handle.
            writePhase st env (some ty) message none options callback
          | some n =>
            writePhase st env (some ty) wrapped (some n) options callback
    else
      match st.handleQueue with
      | some q =>
        if isAckNackMsg message then
          writePhase st env none message none options callback
        else
          -- Queue request anyway to avoid out-of-order messages.
          let q2 := q ++ [⟨message, .null, options, callback⟩]
          .ok (q2.length == 1) { st with handleQueue := some q2 } [] []
      | none =>
        writePhase st env none message none options callback

/-- `validateObject(options, "options")` succeeds (source lines 415-427,
with default options: not null, not an array, `typeof` object). -/
def validObjectOk (v : JSVal) : Bool :=
  !v.isNullV && !v.isArr && (typeof v == "object")

def fieldsOf : JSVal → List (String × JSVal)
  | .obj fields => fields
  | _ => []

/-- The tail of `target.send` after argument shuffling and validation
(source lines 177-188): spread `{ swallowErrors: false, ...options }`,
then either delegate to `_send` or, when not connected, report
`ERR_IPC_CHANNEL_CLOSED` on a later tick and return `false`. -/
def sendChecked (st : ChanState) (env : WriteEnv)
    (message handle options callback : JSVal) : SendResult :=
  let options1 := JSVal.obj (fieldsOf options ++ [("swallowErrors", .bool false)])
  if st.connected then _send st env message handle options1 callback
  else
    let deferred :=
      if isFunc callback then [Eff.callCallback callback (some .channelClosed)]
      else [Eff.emitError .channelClosed]
    .ok false st [] deferred

/-- `target.send` (source lines 165-189): shuffle the optional arguments
(a function in the `handle` or `options` position becomes the callback),
validate `options` when supplied, then continue as `sendChecked`. -/
def send (st : ChanState) (env : WriteEnv)
    (message handle options callback : JSVal) : SendResult :=
  if isFunc handle then
    sendChecked st env message .undefined .undefined handle
  else if isFunc options then
    sendChecked st env message handle .undefined options
  else if !options.isUndefined && !validObjectOk options then
    .thrown (.invalidArgType "options") st []
  else
    sendChecked st env message handle options callback

/-- `target._disconnect` (source lines 341-368): null the channel
reference, close a pending handle if any, and run `finish` (close the
channel, emit `"disconnect"`) on the next tick — unless the transport is
mid-read (`channel.buffering`), in which case `finish` is parked on the
next `message`/`internalMessage` event and does not appear in the deferred
effects here. -/
def _disconnectState (st : ChanState) : ChanState :=
  match st.pendingMessage with
  | some _ => { st with channelPresent := false, pendingMessage := none }
  | none => { st with channelPresent := false }

def _disconnectEffs (st : ChanState) : List Eff :=
  match st.pendingMessage with
  | some p => [.closeHandle p.handle]
  | none => []

def _disconnect (st : ChanState) : HandlerResult :=
  if st.buffering then .done (_disconnectState st) (_disconnectEffs st) []
  else .done (_disconnectState st) (_disconnectEffs st)
    [.channelClose, .emitDisconnect]

/-- `target.disconnect` (source lines 326-339): when already disconnected,
emit `ERR_IPC_DISCONNECTED` and return; otherwise set `connected := false`
and disconnect immediately unless `_handleQueue` exists (then the
disconnect is postponed until the queue is flushed). -/
def disconnect (st : ChanState) : HandlerResult :=
  if !st.connected then .done st [.emitError .disconnectedErr] []
  else
    let st1 := { st with connected := false }
    if st1.handleQueue.isNone then _disconnect st1
    else .done st1 [] []

/-- The flush loop of the ACK/NACK handler (source lines 112-115): re-send
every queued entry in order; a throw from `_send` aborts the loop. -/
def drainQueue (env : WriteEnv) : ChanState → List QueuedSend →
    List Eff → List Eff → HandlerResult
  | st, [], sync, deferred => .done st sync deferred
  | st, e :: rest, sync, deferred =>
    match _send st env e.message e.handle e.options e.callback with
    | .thrown err st2 s2 => .thrown err st2 (sync ++ s2) deferred
    | .ok _ st2 s2 d2 => drainQueue env st2 rest (sync ++ s2) (deferred ++ d2)

def ackMsgVal : JSVal := .obj [("cmd", .str "NODE_HANDLE_ACK")]

def nackMsgVal : JSVal := .obj [("cmd", .str "NODE_HANDLE_NACK")]

def getStrField (m : JSVal) (k : String) : String :=
  match getField m k with
  | .str s => s
  | _ => ""

/-- First part of the ACK/NACK branch of the `internalMessage` handler
(source lines 87-97): on ACK close the pending handle
(`closePendingHandle`); on NACK the post-increment
`retransmissions++ === MAX_HANDLE_RETRANSMISSIONS` compares the old count
against the cap — at the cap, close the handle and emit the
`SentHandleNotReceivedWarning`; below it, keep the pending entry with the
incremented count. -/
def ackNackResolve (st : ChanState) (message : JSVal) : ChanState × List Eff :=
  match st.pendingMessage with
  | none => (st, [])
  | some p =>
    if cmdIs message "NODE_HANDLE_ACK" then
      ({ st with pendingMessage := none }, [.closeHandle p.handle])
    else if p.retransmissions == MAX_HANDLE_RETRANSMISSIONS then
      ({ st with pendingMessage := none },
       [.closeHandle p.handle, .warn "SentHandleNotReceivedWarning"])
    else
      let p2 := { p with retransmissions := p.retransmissions + 1 }
      ({ st with pendingMessage := some p2 }, [])

/-- Second part of the ACK/NACK branch (source lines 103-115): re-send the
still-pending entry if any, then flush the saved queue. -/
def retransmitPending (env : WriteEnv) (st : ChanState)
    (queue : List QueuedSend) (preEffs : List Eff) : HandlerResult :=
  match st.pendingMessage with
  | some p =>
    match _send st env p.message p.handle p.options p.callback with
    | .thrown e stE sE => .thrown e stE (preEffs ++ sE)  []
    | .ok _ stO sO dO => drainQueue env stO queue (preEffs ++ sO) dO
  | none => drainQueue env st queue preEffs []

/-- Last part of the ACK/NACK branch (source line 118): process a pending
disconnect, if any (`!target.connected && target.channel &&
!target._handleQueue`). -/
def finishDisconnectIfDue (st3 : ChanState) (sync deferred : List Eff) :
    HandlerResult :=
  if !st3.connected && st3.channelPresent && st3.handleQueue.isNone then
    match _disconnect st3 with
    | .done st4 s4 d4 => .done st4 (sync ++ s4) (deferred ++ d4)
    | .thrown e stE sE dE => .thrown e stE (sync ++ sE) (deferred ++ dE)
  else .done st3 sync deferred

def maybeFinishDisconnect : HandlerResult → HandlerResult
  | .thrown e stE sE dE => .thrown e stE sE dE
  | .done st3 sync deferred => finishDisconnectIfDue st3 sync deferred

/-- The missing-handle reply of the `NODE_HANDLE` branch (source line
128): `target._send({ cmd: "NODE_HANDLE_NACK" }, null, true)`; no
reconstruction is attempted. -/
def replyNack (st : ChanState) (env : WriteEnv) : HandlerResult :=
  match _send st env nackMsgVal .null (.bool true) .undefined with
  | .thrown e stE sE => .thrown e stE sE []
  | .ok _ st2 sync deferred => .done st2 sync deferred

/-- The received-handle path of the `NODE_HANDLE` branch (source lines
134-146): acknowledge first with `target._send({ cmd: "NODE_HANDLE_ACK"
}, null, true)`, then convert the handle via
`handleConversion[message.type].got` (reading `got` off an unregistered
type throws a TypeError). -/
def replyAckAndReconstruct (st : ChanState) (env : WriteEnv)
    (ty : String) : HandlerResult :=
  match _send st env ackMsgVal .null (.bool true) .undefined with
  | .thrown e stE sE => .thrown e stE sE []
  | .ok _ st2 sync deferred =>
    if gotRegistered ty then
      .done st2 (sync ++ [.reconstructHandle ty]) deferred
    else .thrown .jsTypeError st2 sync deferred

/-- The `internalMessage` handler installed by `setupChannel` (source
lines 84-147).

On `NODE_HANDLE_ACK`/`NODE_HANDLE_NACK`: resolve the pending entry
(`ackNackResolve`), null out `_handleQueue` (the code asserts it is an
array here), re-send the still-pending entry and flush the queue
(`retransmitPending`), and run a postponed disconnect when one is due
(`maybeFinishDisconnect`).

On `NODE_HANDLE`: reply `NODE_HANDLE_NACK` when no raw handle arrived,
otherwise reply `NODE_HANDLE_ACK` and then reconstruct the wrapper via the
registry's `got` strategy (accessing `got` of an unregistered type throws a
TypeError). -/
def onInternalMessage (st : ChanState) (env : WriteEnv)
    (message : JSVal) (handle : Option Nat) : HandlerResult :=
  if cmdIs message "NODE_HANDLE_ACK" || cmdIs message "NODE_HANDLE_NACK" then
    let ackStep := ackNackResolve st message
    let queue := ackStep.1.handleQueue.getD []
    let st2 := { ackStep.1 with handleQueue := none }
    maybeFinishDisconnect (retransmitPending env st2 queue ackStep.2)
  else if cmdIs message "NODE_HANDLE" then
    match handle with
    | none => replyNack st env
    | some _ => replyAckAndReconstruct st env (getStrField message "type")
  else .done st [] []

/-- Per-message dispatch of `channel.onread` (source lines 55-69): an
internal message is delivered as `"internalMessage"` (a `NODE_HANDLE`
message consumes the pending raw handle of the read batch), every other
message as `"message"`; returns the delivered event triple and the
remaining pending raw handle. -/
def onreadStep (m : JSVal) (pendingH : Option Nat) :
    (String × JSVal × Option Nat) × Option Nat :=
  if isInternal m then
    if cmdIs m "NODE_HANDLE" then (("internalMessage", m, pendingH), none)
    else (("internalMessage", m, none), pendingH)
  else (("message", m, none), pendingH)

/-- State of inbound delivery: the `Control` object's `kPendingMessages`
buffer, the `"message"` listener count, how many `newListener`-scheduled
flush tasks are queued on the tick queue, and the log of events actually
emitted to listeners. -/
structure MsgState where
  channelPresent : Bool
  msgListeners : Nat
  pending : List (String × JSVal × Option Nat)
  scheduledFlushes : Nat
  emitted : List (String × JSVal × Option Nat)
deriving Repr

/-- The `emit` helper of `setupChannel` (source lines 370-377): an
`"internalMessage"` event, or any event while a `"message"` listener
exists, is emitted directly; otherwise the triple is appended to
`kPendingMessages`. -/
def emitOrBuffer (st : MsgState) (event : String) (m : JSVal)
    (h : Option Nat) : MsgState :=
  if event == "internalMessage" || st.msgListeners > 0 then
    { st with emitted := st.emitted ++ [(event, m, h)] }
  else
    { st with pending := st.pending ++ [(event, m, h)] }

/-- The `newListener` handler (source lines 149-163): registering any
listener schedules a flush task via `process.nextTick`; nothing is
emitted synchronously. -/
def newListener (st : MsgState) (event : String) : MsgState :=
  { st with
      msgListeners :=
        if event == "message" then st.msgListeners + 1 else st.msgListeners,
      scheduledFlushes := st.scheduledFlushes + 1 }

/-- Run one scheduled flush task (the body of the `process.nextTick`
closure at source lines 150-162): bail out when the channel is gone or no
`"message"` listener exists or the buffer is empty; otherwise emit every
buffered triple in order and reset the buffer to `[]`. -/
def runFlush (st : MsgState) : MsgState :=
  match st.scheduledFlushes with
  | 0 => st
  | n + 1 =>
    let st1 := { st with scheduledFlushes := n }
    if !st1.channelPresent || st1.msgListeners == 0 then st1
    else if st1.pending.length == 0 then st1
    else { st1 with emitted := st1.emitted ++ st1.pending, pending := [] }

/-- State of the `Control` reference counter (source lines 589-630):
`#refs`, `#refExplicitlySet`, and the underlying channel's ref state. -/
structure ControlState where
  refs : Int
  refExplicitlySet : Bool
  channelRefed : Bool
deriving DecidableEq, Repr

/-- `Control.refCounted` (source lines 604-608). -/
def refCounted (c : ControlState) : ControlState :=
  let refs := c.refs + 1
  if refs == 1 && !c.refExplicitlySet then
    { c with refs := refs, channelRefed := true }
  else { c with refs := refs }

/-- `Control.unrefCounted` (source lines 610-615). -/
def unrefCounted (c : ControlState) : ControlState :=
  let refs := c.refs - 1
  if refs == 0 && !c.refExplicitlySet then
    { c with refs := refs, channelRefed := false }
  else { c with refs := refs }

/-- `Control.ref` (source lines 617-620). -/
def ctlRef (c : ControlState) : ControlState :=
  { c with refExplicitlySet := true, channelRefed := true }

/-- `Control.unref` (source lines 622-625). -/
def ctlUnref (c : ControlState) : ControlState :=
  { c with refExplicitlySet := true, channelRefed := false }

/-- An automatic reference-count call site (write completion / listener
tracking). -/
inductive AutoRefOp where
  | inc
  | dec
deriving DecidableEq, Repr

def applyAutoRefOp (c : ControlState) : AutoRefOp → ControlState
  | .inc => refCounted c
  | .dec => unrefCounted c

def SendResult.stateOf : SendResult → ChanState
  | .thrown _ st _ => st
  | .ok _ st _ _ => st

def HandlerResult.stateOf : HandlerResult → ChanState
  | .thrown _ st _ _ => st
  | .done st _ _ => st

/-- One externally triggered operation on the channel state, for stating
lifecycle invariants over arbitrary interleavings. -/
inductive ChanOp where
  | opSend (env : WriteEnv) (message handle options callback : JSVal)
  | opDisconnect
  | opInternal (env : WriteEnv) (message : JSVal) (handle : Option Nat)

def applyChanOp (st : ChanState) : ChanOp → ChanState
  | .opSend env m h o c => (send st env m h o c).stateOf
  | .opDisconnect => (disconnect st).stateOf
  | .opInternal env m h => (onInternalMessage st env m h).stateOf

/-! Concrete states used by the counterexamples and witnesses below. -/

def env0 : WriteEnv := ⟨0, false⟩

/-- A pending handle send as stored by `postSend`: the `NODE_HANDLE`
envelope and the native handle that was written. -/
def pend0 : PendingMsg :=
  ⟨.undefined,
   .obj [("cmd", .str "NODE_HANDLE"), ("type", .str "net.Socket"), ("msg", .str "x2")],
   .handle ⟨.rawNative, some 7⟩,
   .obj [("swallowErrors", .bool false)], 0⟩

def pend1 : PendingMsg := { pend0 with retransmissions := 1 }

def pend3 : PendingMsg := { pend0 with retransmissions := 3 }

/-- A channel with a handle handshake in flight (queue exists, one pending
message). -/
def stPend : ChanState :=
  { connected := true, channelPresent := true, handleQueue := some [],
    pendingMessage := some pend0, writeQueueSize := 0, buffering := false }

def stPendAfter : ChanState :=
  { stPend with handleQueue := none, pendingMessage := some pend1 }

def stPendMax : ChanState := { stPend with pendingMessage := some pend3 }

def stCap : ChanState := { stPend with handleQueue := none, pendingMessage := none }

/-- A freshly connected idle channel. -/
def stIdle : ChanState :=
  { connected := true, channelPresent := true, handleQueue := none,
    pendingMessage := none, writeQueueSize := 0, buffering := false }

/-- A disconnected channel. -/
def stDisc : ChanState :=
  { connected := false, channelPresent := true, handleQueue := none,
    pendingMessage := none, writeQueueSize := 0, buffering := false }

/-- Disconnect requested while a handshake was still in flight: connected
already false, queue and pending entry still draining. -/
def stDrain : ChanState :=
  { connected := false, channelPresent := true, handleQueue := some [],
    pendingMessage := some pend0, writeQueueSize := 0, buffering := false }

/-- A connected channel whose backlog queue exists with transport
backpressure past the watermark. -/
def stHighWater : ChanState :=
  { connected := true, channelPresent := true, handleQueue := some [],
    pendingMessage := none, writeQueueSize := 200000, buffering := false }

/-! Preservation lemmas: none of the send/receive operations ever touch
`connected` except `disconnect`, which only ever lowers it. -/

theorem queueInitState_connected (st : ChanState) (outHandle : Option Nat) :
    (queueInitState st outHandle).connected = st.connected := by
  unfold queueInitState
  repeat' split
  all_goals rfl

theorem writeSuccessState_connected (st : ChanState) (tyOpt : Option String)
    (outMsg : JSVal) (outHandle : Option Nat) (options callback : JSVal) :
    (writeSuccessState st tyOpt outMsg outHandle options callback).connected
      = st.connected := by
  unfold writeSuccessState
  repeat' split
  all_goals simp [queueInitState_connected]

theorem writePhase_connected (st : ChanState) (env : WriteEnv)
    (tyOpt : Option String) (outMsg : JSVal) (outHandle : Option Nat)
    (options callback : JSVal) :
    (writePhase st env tyOpt outMsg outHandle options callback).stateOf.connected
      = st.connected := by
  unfold writePhase
  split
  · exact writeSuccessState_connected st tyOpt outMsg outHandle options callback
  · rfl

theorem _send_connected (st : ChanState) (env : WriteEnv)
    (message handle options callback : JSVal) :
    (_send st env message handle options callback).stateOf.connected
      = st.connected := by
  unfold _send
  repeat' split
  all_goals first
    | rfl
    | apply writePhase_connected

theorem sendChecked_connected (st : ChanState) (env : WriteEnv)
    (message handle options callback : JSVal) :
    (sendChecked st env message handle options callback).stateOf.connected
      = st.connected := by
  unfold sendChecked
  split
  · apply _send_connected
  · rfl

theorem send_connected (st : ChanState) (env : WriteEnv)
    (message handle options callback : JSVal) :
    (send st env message handle options callback).stateOf.connected
      = st.connected := by
  unfold send
  repeat' split
  all_goals first
    | rfl
    | apply sendChecked_connected

theorem drainQueue_connected (env : WriteEnv) (queue : List QueuedSend) :
    ∀ (st : ChanState) (sync deferred : List Eff),
      (drainQueue env st queue sync deferred).stateOf.connected
        = st.connected := by
  induction queue with
  | nil => intro st sync deferred; rfl
  | cons e rest ih =>
    intro st sync deferred
    unfold drainQueue
    have h := _send_connected st env e.message e.handle e.options e.callback
    cases hr : _send st env e.message e.handle e.options e.callback with
    | thrown err st2 s2 =>
      rw [hr] at h
      exact h
    | ok r st2 s2 d2 =>
      rw [hr] at h
      exact (ih st2 (sync ++ s2) (deferred ++ d2)).trans h

theorem _disconnectState_connected (st : ChanState) :
    (_disconnectState st).connected = st.connected := by
  unfold _disconnectState
  split
  · rfl
  · rfl

theorem _disconnect_connected (st : ChanState) :
    (_disconnect st).stateOf.connected = st.connected := by
  unfold _disconnect
  split
  · exact _disconnectState_connected st
  · exact _disconnectState_connected st

theorem ackNackResolve_connected (st : ChanState) (message : JSVal) :
    (ackNackResolve st message).1.connected = st.connected := by
  unfold ackNackResolve
  repeat' split
  all_goals rfl

theorem retransmitPending_connected (env : WriteEnv) (st : ChanState)
    (queue : List QueuedSend) (preEffs : List Eff) :
    (retransmitPending env st queue preEffs).stateOf.connected
      = st.connected := by
  unfold retransmitPending
  split
  case h_1 p hp =>
    have h := _send_connected st env p.message p.handle p.options p.callback
    cases hr : _send st env p.message p.handle p.options p.callback with
    | thrown err st2 s2 =>
      rw [hr] at h
      exact h
    | ok r st2 s2 d2 =>
      rw [hr] at h
      exact (drainQueue_connected env queue st2 _ _).trans h
  case h_2 =>
    exact drainQueue_connected env queue st preEffs []

theorem finishDisconnectIfDue_connected (st3 : ChanState)
    (sync deferred : List Eff) :
    (finishDisconnectIfDue st3 sync deferred).stateOf.connected
      = st3.connected := by
  unfold finishDisconnectIfDue
  split
  · have h := _disconnect_connected st3
    cases hr : _disconnect st3 with
    | done st4 s4 d4 => rw [hr] at h; exact h
    | thrown e stE sE dE => rw [hr] at h; exact h
  · rfl

theorem maybeFinishDisconnect_connected (r : HandlerResult) :
    (maybeFinishDisconnect r).stateOf.connected = r.stateOf.connected := by
  cases r with
  | thrown e stE sE dE => rfl
  | done st3 sync deferred => exact finishDisconnectIfDue_connected st3 sync deferred

theorem replyNack_connected (st : ChanState) (env : WriteEnv) :
    (replyNack st env).stateOf.connected = st.connected := by
  unfold replyNack
  have h := _send_connected st env nackMsgVal .null (.bool true) .undefined
  split
  · rename_i e stE sE heq
    rw [heq] at h; exact h
  · rename_i r st2 sync deferred heq
    rw [heq] at h; exact h

theorem replyAck_connected (st : ChanState) (env : WriteEnv) (ty : String) :
    (replyAckAndReconstruct st env ty).stateOf.connected = st.connected := by
  unfold replyAckAndReconstruct
  have h := _send_connected st env ackMsgVal .null (.bool true) .undefined
  split
  · rename_i e stE sE heq
    rw [heq] at h; exact h
  · rename_i r st2 sync deferred heq
    rw [heq] at h
    split
    · exact h
    · exact h

theorem onInternalMessage_connected (st : ChanState) (env : WriteEnv)
    (message : JSVal) (handle : Option Nat) :
    (onInternalMessage st env message handle).stateOf.connected
      = st.connected := by
  unfold onInternalMessage
  split
  · have h1 := maybeFinishDisconnect_connected
      (retransmitPending env { (ackNackResolve st message).1 with handleQueue := none }
        ((ackNackResolve st message).1.handleQueue.getD []) (ackNackResolve st message).2)
    have h2 := retransmitPending_connected env
      { (ackNackResolve st message).1 with handleQueue := none }
      ((ackNackResolve st message).1.handleQueue.getD []) (ackNackResolve st message).2
    have h3 := ackNackResolve_connected st message
    exact h1.trans (h2.trans h3)
  · split
    · cases handle with
      | none => exact replyNack_connected st env
      | some hv => exact replyAck_connected st env (getStrField message "type")
    · rfl

theorem disconnect_connected_false (st : ChanState)
    (h : st.connected = false) :
    (disconnect st).stateOf.connected = false := by
  unfold disconnect
  simp only [h, Bool.not_false, if_true]
  exact h

theorem applyChanOp_mono (st : ChanState) (op : ChanOp)
    (h : st.connected = false) : (applyChanOp st op).connected = false := by
  cases op with
  | opSend env m hd o c => rw [applyChanOp, send_connected]; exact h
  | opDisconnect => rw [applyChanOp]; exact disconnect_connected_false st h
  | opInternal env m hd => rw [applyChanOp, onInternalMessage_connected]; exact h

/-! Claim C9: the explicit-override rule of the reference counter. -/

theorem autoRef_inert (c : ControlState) (op : AutoRefOp)
    (h : c.refExplicitlySet = true) :
    (applyAutoRefOp c op).channelRefed = c.channelRefed ∧
      (applyAutoRefOp c op).refExplicitlySet = true := by
  cases op <;> simp [applyAutoRefOp, refCounted, unrefCounted, h]

theorem autoRef_foldl_inert (ops : List AutoRefOp) :
    ∀ c : ControlState, c.refExplicitlySet = true →
      (ops.foldl applyAutoRefOp c).channelRefed = c.channelRefed := by
  induction ops with
  | nil => intro c _; rfl
  | cons op rest ih =>
    intro c h
    obtain ⟨h1, h2⟩ := autoRef_inert c op h
    simpa [List.foldl_cons] using (ih _ h2).trans h1

/-- C9: once the user has called the control object's explicit `ref()` or
`unref()`, the automatic reference-counting entry points
(`refCounted`/`unrefCounted`, driven by in-flight write count) permanently
stop invoking the underlying channel's ref/unref: after `ctlRef` the
channel stays referenced and after `ctlUnref` it stays unreferenced, no
matter what sequence of automatic calls follows. -/
theorem c9_explicit_override (c : ControlState) (ops : List AutoRefOp) :
    (ops.foldl applyAutoRefOp (ctlRef c)).channelRefed = true ∧
      (ops.foldl applyAutoRefOp (ctlUnref c)).channelRefed = false := by
  exact ⟨autoRef_foldl_inert ops (ctlRef c) rfl,
         autoRef_foldl_inert ops (ctlUnref c) rfl⟩

/-! Claim C8: classification of internal envelopes. -/

/-- C8: an inbound envelope is classified as internal exactly when it is a
(non-null) plain object whose `cmd` field is a string strictly longer than
the prefix `"NODE_"` that starts with that prefix; `onread` delivers an
internal envelope as `"internalMessage"` and every other envelope as
`"message"`, and `"internalMessage"` events bypass the pending buffer (so
they are never delivered to user `"message"` listeners). -/
theorem c8_internal_classification :
    (∀ m : JSVal, isInternal m = true ↔
      ((∃ fields, m = .obj fields) ∧
        ∃ s, getField m "cmd" = .str s ∧
          nodePrefixStr.length < s.length ∧
          s.take nodePrefixStr.length = nodePrefixStr)) ∧
    (∀ (m : JSVal) (ph : Option Nat),
      (onreadStep m ph).1.1 =
        if isInternal m then "internalMessage" else "message") ∧
    (∀ (ms : MsgState) (m : JSVal) (h : Option Nat),
      (emitOrBuffer ms "internalMessage" m h).pending = ms.pending ∧
      (emitOrBuffer ms "internalMessage" m h).emitted =
        ms.emitted ++ [("internalMessage", m, h)]) := by
  refine ⟨?_, ?_, ?_⟩
  · intro m
    constructor
    · intro h
      cases m with
      | obj fields =>
        refine ⟨⟨fields, rfl⟩, ?_⟩
        cases hcmd : getField (JSVal.obj fields) "cmd" <;>
          simp [isInternal, JSVal.isNullV, typeof, hcmd] at h
        case str s => exact ⟨s, rfl, h.1, h.2⟩
      | undefined => simp [isInternal, JSVal.isNullV, typeof] at h
      | null => simp [isInternal, JSVal.isNullV, typeof] at h
      | bool b => simp [isInternal, JSVal.isNullV, typeof] at h
      | num n => simp [isInternal, JSVal.isNullV, typeof] at h
      | str s => simp [isInternal, JSVal.isNullV, typeof] at h
      | func i => simp [isInternal, JSVal.isNullV, typeof] at h
      | arr i => simp [isInternal, JSVal.isNullV, typeof, getField] at h
      | handle hh => simp [isInternal, JSVal.isNullV, typeof, getField] at h
    · rintro ⟨⟨fields, rfl⟩, s, hs, hlen, hpre⟩
      simp [isInternal, JSVal.isNullV, typeof, hs, hlen, hpre]
  · intro m ph
    rcases Bool.eq_false_or_eq_true (isInternal m) with h | h <;>
      simp [onreadStep, h]
    split <;> rfl
  · intro ms m h
    constructor <;> simp [emitOrBuffer]

/-! Claim C5: buffering and flushing of early inbound messages. -/

/-- Running one scheduled flush task with a live channel and at least one
`"message"` listener emits the whole buffer in order and empties it. -/
theorem runFlush_run (ms : MsgState) (n : Nat)
    (h1 : ms.channelPresent = true) (h2 : 0 < ms.msgListeners)
    (h3 : ms.scheduledFlushes = n + 1) :
    runFlush ms =
      { ms with scheduledFlushes := n,
                emitted := ms.emitted ++ ms.pending, pending := [] } := by
  obtain ⟨cp, ml, pend, sf, em⟩ := ms
  simp only at h1 h2 h3
  subst h1 h3
  have h2' : (ml == 0) = false := by
    simp only [beq_eq_false_iff_ne, ne_eq]
    exact Nat.pos_iff_ne_zero.mp h2
  by_cases hp : pend = []
  · subst hp
    simp [runFlush, h2']
  · have hlen : (pend.length == 0) = false := by
      simp only [beq_eq_false_iff_ne, ne_eq, List.length_eq_zero]
      exact hp
    simp [runFlush, h2', hlen]

/-- C5: inbound user messages that arrive with no `"message"` listener are
appended (in order) to the pending buffer rather than emitted; registering
a listener emits nothing synchronously (it only schedules a flush task);
a later flush task with a listener present emits the whole buffer in
arrival order and empties it; and a second flush task emits nothing more
(the flush happens exactly once). -/
theorem c5_pending_message_flush :
    (∀ (ms : MsgState) (m : JSVal) (h : Option Nat), ms.msgListeners = 0 →
      emitOrBuffer ms "message" m h =
        { ms with pending := ms.pending ++ [("message", m, h)] }) ∧
    (∀ (ms : MsgState) (event : String),
      (newListener ms event).emitted = ms.emitted ∧
      (newListener ms event).pending = ms.pending ∧
      (newListener ms event).scheduledFlushes = ms.scheduledFlushes + 1) ∧
    (∀ (ms : MsgState) (n : Nat), ms.channelPresent = true →
      0 < ms.msgListeners → ms.scheduledFlushes = n + 1 →
      (runFlush ms).emitted = ms.emitted ++ ms.pending ∧
      (runFlush ms).pending = []) ∧
    (∀ (ms : MsgState) (n : Nat), ms.channelPresent = true →
      0 < ms.msgListeners → ms.scheduledFlushes = n + 2 →
      (runFlush (runFlush ms)).emitted = ms.emitted ++ ms.pending ∧
      (runFlush (runFlush ms)).pending = []) := by
  refine ⟨?_, ?_, ?_, ?_⟩
  · intro ms m h h0
    simp [emitOrBuffer, h0]
  · intro ms event
    refine ⟨rfl, rfl, rfl⟩
  · intro ms n h1 h2 h3
    rw [runFlush_run ms n h1 h2 h3]
    exact ⟨rfl, rfl⟩
  · intro ms n h1 h2 h3
    rw [runFlush_run ms (n + 1) h1 h2 h3]
    have h2' : (ms.msgListeners == 0) = false := by
      simp only [beq_eq_false_iff_ne, ne_eq]
      exact Nat.pos_iff_ne_zero.mp h2
    constructor <;> simp [runFlush, h1, h2']

/-- A buffer state with one pending message and no listener. -/
def msBuf : MsgState :=
  { channelPresent := true, msgListeners := 0,
    pending := [("message", .str "a", none)], scheduledFlushes := 0,
    emitted := [] }

/-- One listener registered on `msBuf`; a second registration for the
double-flush case. -/
def msBuf2 : MsgState := newListener msBuf "message"

def msBuf3 : MsgState := newListener msBuf2 "message"

/-- Witness for C8 at concrete envelopes. -/
theorem c8_internal_classification_witness :
    isInternal ackMsgVal = true ∧
    (onreadStep ackMsgVal none).1.1 = "internalMessage" ∧
    (onreadStep (.str "hello") none).1.1 = "message" :=
  ⟨(c8_internal_classification.1 ackMsgVal).mpr
      ⟨⟨_, rfl⟩, "NODE_HANDLE_ACK", rfl, by decide, rfl⟩,
   by rw [c8_internal_classification.2.1 ackMsgVal none]; rfl,
   by rw [c8_internal_classification.2.1 (.str "hello") none]; rfl⟩

/-- Witness for C5 at a concrete buffer. -/
theorem c5_pending_message_flush_witness :
    msBuf.msgListeners = 0 ∧
    emitOrBuffer msBuf "message" (.str "b") none =
      { msBuf with pending := msBuf.pending ++ [("message", .str "b", none)] } ∧
    (runFlush msBuf2).emitted = msBuf2.emitted ++ msBuf2.pending ∧
    (runFlush msBuf2).pending = [] ∧
    (runFlush (runFlush msBuf3)).emitted = msBuf3.emitted ++ msBuf3.pending ∧
    (runFlush (runFlush msBuf3)).pending = [] := by
  have hb := c5_pending_message_flush.1 msBuf (.str "b") none rfl
  have h1 := c5_pending_message_flush.2.2.1 msBuf2 0 rfl (by decide) rfl
  have h2 := c5_pending_message_flush.2.2.2 msBuf3 0 rfl (by decide) rfl
  exact ⟨rfl, hb, h1.1, h1.2, h2.1, h2.2⟩

/-! Claim C4: the disconnect lifecycle. -/

/-- C4: `connected` is monotone — once false, no operation (send,
disconnect, inbound internal message) ever sets it back to true, so the
true-to-false transition happens at most once; the first `disconnect()`
with no backlog queue sets `connected := false`, nulls the channel, closes
a pending handle, and schedules channel close plus the `"disconnect"`
event; with a backlog queue it only clears `connected` and defers the
teardown; a `disconnect()` while already disconnected emits
`ERR_IPC_DISCONNECTED` (no throw), changes nothing, and closes nothing;
and the deferred teardown runs from the ACK/NACK handler once the queue
and the pending handshake drain. -/
theorem c4_disconnect_lifecycle :
    (∀ (ops : List ChanOp) (st : ChanState), st.connected = false →
      (ops.foldl applyChanOp st).connected = false) ∧
    (∀ st : ChanState, st.connected = true → st.handleQueue = none →
      st.buffering = false →
      disconnect st =
        .done { st with connected := false, channelPresent := false,
                        pendingMessage := none }
          (_disconnectEffs st) [.channelClose, .emitDisconnect]) ∧
    (∀ (st : ChanState) (q : List QueuedSend), st.connected = true →
      st.handleQueue = some q →
      disconnect st = .done { st with connected := false } [] []) ∧
    (∀ st : ChanState, st.connected = false →
      disconnect st = .done st [.emitError .disconnectedErr] []) ∧
    (∀ (st : ChanState) (env : WriteEnv) (p : PendingMsg),
      st.connected = false → st.channelPresent = true →
      st.handleQueue = some [] → st.pendingMessage = some p →
      st.buffering = false →
      onInternalMessage st env ackMsgVal none =
        .done { st with pendingMessage := none, handleQueue := none,
                        channelPresent := false }
          [.closeHandle p.handle] [.channelClose, .emitDisconnect]) := by
  refine ⟨?_, ?_, ?_, ?_, ?_⟩
  · intro ops
    induction ops with
    | nil => intro st h; exact h
    | cons op rest ih =>
      intro st h
      exact ih (applyChanOp st op) (applyChanOp_mono st op h)
  · intro st h1 h2 h3
    obtain ⟨c, cp, hq, pm, w, b⟩ := st
    simp only at h1 h2 h3
    subst h1 h2 h3
    cases pm with
    | none =>
      simp [disconnect, _disconnect, _disconnectState, _disconnectEffs]
    | some p =>
      simp [disconnect, _disconnect, _disconnectState, _disconnectEffs]
  · intro st q h1 hq
    obtain ⟨c, cp, hqf, pm, w, b⟩ := st
    simp only at h1 hq
    subst h1 hq
    simp [disconnect]
  · intro st h
    unfold disconnect
    simp [h]
  · intro st env p h1 h2 h3 h4 h5
    obtain ⟨c, cp, hq, pm, w, b⟩ := st
    simp only at h1 h2 h3 h4 h5
    subst h1 h2 h3 h4 h5
    rfl

/-- Witness for C4 at concrete states. -/
theorem c4_disconnect_lifecycle_witness :
    stDisc.connected = false ∧
    ([ChanOp.opDisconnect].foldl applyChanOp stDisc).connected = false ∧
    disconnect stIdle =
      .done { stIdle with connected := false, channelPresent := false,
                          pendingMessage := none }
        (_disconnectEffs stIdle) [.channelClose, .emitDisconnect] ∧
    disconnect stPend = .done { stPend with connected := false } [] [] ∧
    disconnect stDisc = .done stDisc [.emitError .disconnectedErr] [] ∧
    onInternalMessage stDrain env0 ackMsgVal none =
      .done { stDrain with pendingMessage := none, handleQueue := none,
                           channelPresent := false }
        [.closeHandle pend0.handle] [.channelClose, .emitDisconnect] :=
  ⟨rfl,
   c4_disconnect_lifecycle.1 [ChanOp.opDisconnect] stDisc rfl,
   c4_disconnect_lifecycle.2.1 stIdle rfl rfl rfl,
   c4_disconnect_lifecycle.2.2.1 stPend [] rfl rfl,
   c4_disconnect_lifecycle.2.2.2.1 stDisc rfl,
   c4_disconnect_lifecycle.2.2.2.2 stDrain env0 pend0 rfl rfl rfl rfl rfl⟩

/-! Claims C3 and C10: send() while disconnected. -/

/-- C3 counterexample: the claim quantifies over every `send()` call while
disconnected, but a call whose `options` argument is a non-object throws
`ERR_INVALID_ARG_TYPE` synchronously (the argument-shape validation runs
before the `connected` check), so that call neither returns `false` nor
reports `ChannelClosed`. -/
theorem c3_options_throw_counterexample :
    stDisc.connected = false ∧
    send stDisc env0 (.str "hi") .undefined (.num 1) .undefined =
      .thrown (.invalidArgType "options") stDisc [] ∧
    ∀ (st2 : ChanState) (sync deferred : List Eff),
      send stDisc env0 (.str "hi") .undefined (.num 1) .undefined ≠
        .ok false st2 sync deferred := by
  refine ⟨rfl, rfl, ?_⟩
  intro st2 sync deferred h
  exact SendResult.noConfusion h

/-- C3 (amended): for every `send()` while `connected` is false whose
`options` argument passes shape validation (absent, a function, or a valid
object — a non-object `options` still throws synchronously), nothing is
written to the transport, `send()` returns `false`, and `ChannelClosed`
is delivered only as a deferred effect (a later tick) — to the effective
callback if one was supplied (including via the legacy argument shuffles),
otherwise via an `"error"` event. -/
theorem c3_disconnected_send (st : ChanState) (env : WriteEnv)
    (message handle options callback : JSVal)
    (hc : st.connected = false)
    (hopt : options.isUndefined = true ∨ isFunc options = true ∨
      validObjectOk options = true) :
    send st env message handle options callback =
      .ok false st []
        (if isFunc handle then [.callCallback handle (some .channelClosed)]
         else if isFunc options then
           [.callCallback options (some .channelClosed)]
         else if isFunc callback then
           [.callCallback callback (some .channelClosed)]
         else [.emitError .channelClosed]) := by
  unfold send sendChecked
  by_cases hh : isFunc handle
  · simp [hh, hc]
  · by_cases ho : isFunc options
    · simp [hh, ho, hc]
    · rcases hopt with h | h | h
      · simp [hh, ho, hc, h]
      · exact absurd h ho
      · simp [hh, ho, hc, h]

/-- Witness for C3 at a concrete disconnected state with a callback. -/
theorem c3_disconnected_send_witness :
    stDisc.connected = false ∧
    send stDisc env0 (.str "hi") .undefined .undefined (.func 3) =
      .ok false stDisc [] [.callCallback (.func 3) (some .channelClosed)] :=
  ⟨rfl, c3_disconnected_send stDisc env0 (.str "hi") .undefined .undefined
    (.func 3) rfl (Or.inl rfl)⟩

/-- C10: while disconnected, `send()` performs no message validation — even
an undefined message or a message of invalid type returns `false` with an
asynchronous error (only a non-object `options` argument is still rejected
synchronously); and the synchronous `MissingArguments` /
`InvalidArgumentType`-for-message / `InvalidHandleType` throws can only
happen while `connected` is true. -/
theorem c10_disconnected_no_validation :
    (∀ (st : ChanState) (env : WriteEnv)
        (message handle options callback : JSVal),
      st.connected = false →
      (options.isUndefined = true ∨ isFunc options = true ∨
        validObjectOk options = true ∨ isFunc handle = true) →
      ∃ deferred, send st env message handle options callback =
        .ok false st [] deferred) ∧
    (∀ (st : ChanState) (env : WriteEnv)
        (message handle options callback : JSVal) (e : ErrKind)
        (stE : ChanState) (sync : List Eff),
      send st env message handle options callback = .thrown e stE sync →
      (e = .missingArgs "message" ∨ e = .invalidArgType "message" ∨
        e = .invalidHandleType) →
      st.connected = true) := by
  constructor
  · intro st env m hd o cb hc hopt
    unfold send sendChecked
    by_cases hh : isFunc hd
    · exact ⟨[.callCallback hd (some .channelClosed)], by simp [hh, hc]⟩
    · by_cases ho : isFunc o
      · exact ⟨[.callCallback o (some .channelClosed)], by simp [hh, ho, hc]⟩
      · rcases hopt with h | h | h | h
        · exact ⟨if isFunc cb then [.callCallback cb (some .channelClosed)]
            else [.emitError .channelClosed], by simp [hh, ho, hc, h]⟩
        · exact absurd h ho
        · exact ⟨if isFunc cb then [.callCallback cb (some .channelClosed)]
            else [.emitError .channelClosed], by simp [hh, ho, hc, h]⟩
        · exact absurd h hh
  · intro st env m hd o cb e stE sync hsend hdisj
    cases hcc : st.connected
    · exfalso
      unfold send sendChecked at hsend
      by_cases hh : isFunc hd
      · simp [hh, hcc] at hsend
      · by_cases ho : isFunc o
        · simp [hh, ho, hcc] at hsend
        · by_cases hv : (!o.isUndefined && !validObjectOk o) = true
          · simp [hh, ho, hv] at hsend
            obtain ⟨he, -, -⟩ := hsend
            rcases hdisj with h | h | h <;> rw [h] at he <;>
              exact absurd he (by decide)
          · simp [hh, ho, hv, hcc] at hsend
    · rfl

/-- Witness for C10: an undefined message on a disconnected channel does
not throw, and a `MissingArguments` throw pins `connected = true`. -/
theorem c10_disconnected_no_validation_witness :
    stDisc.connected = false ∧
    (∃ deferred, send stDisc env0 .undefined .undefined .undefined .undefined =
      .ok false stDisc [] deferred) ∧
    stIdle.connected = true := by
  refine ⟨rfl, ?_, ?_⟩
  · exact c10_disconnected_no_validation.1 stDisc env0 .undefined .undefined
      .undefined .undefined rfl (Or.inl rfl)
  · exact c10_disconnected_no_validation.2 stIdle env0 .undefined .undefined
      .undefined .undefined (.missingArgs "message") stIdle [] rfl
      (Or.inl rfl)

/-! Claim C6: the backpressure return value. -/

def defaultOptionsObj : JSVal := .obj [("swallowErrors", .bool false)]

theorem isUndefined_undefined_eq : (JSVal.undefined).isUndefined = true := rfl

theorem queueInitState_writeQueueSize (st : ChanState)
    (outHandle : Option Nat) :
    (queueInitState st outHandle).writeQueueSize = st.writeQueueSize := by
  unfold queueInitState
  repeat' split
  all_goals rfl

theorem writeSuccessState_writeQueueSize (st : ChanState)
    (tyOpt : Option String) (outMsg : JSVal) (outHandle : Option Nat)
    (options callback : JSVal) :
    (writeSuccessState st tyOpt outMsg outHandle options callback).writeQueueSize
      = st.writeQueueSize := by
  unfold writeSuccessState
  repeat' split
  all_goals simp [queueInitState_writeQueueSize]

/-- Any send that reaches the write phase returns the watermark signal
`writeQueueSize < 65536 * 2` (the post-write state never changes
`writeQueueSize` in this embedding, and the failure branch reads it off
the unchanged state), whatever the transport reported. -/
theorem writePhase_ret (st : ChanState) (env : WriteEnv)
    (tyOpt : Option String) (outMsg : JSVal) (outHandle : Option Nat)
    (options callback : JSVal) :
    ∃ st2 sync deferred,
      writePhase st env tyOpt outMsg outHandle options callback =
        .ok (decide (st.writeQueueSize < 65536 * 2)) st2 sync deferred := by
  unfold writePhase
  split
  · refine ⟨writeSuccessState st tyOpt outMsg outHandle options callback,
      [Eff.write outMsg outHandle] ++
        (if env.wasAsync then [Eff.ctlRefCounted] else []),
      (if env.wasAsync then [Eff.ctlUnrefCounted] else []) ++
        cbEffOk callback, ?_⟩
    simp only [writeSuccessState_writeQueueSize]
  · exact ⟨st, writeFailCloseEffs tyOpt outHandle options,
      if optSwallowErrors options then []
      else if isFunc callback then
        [.callCallback callback (some (.writeFailure env.writeErr))]
      else [.emitError (.writeFailure env.writeErr)], rfl⟩

/-- C6 counterexample: a `send()` that gets enqueued behind a handle
handshake returns whether it became the first queued entry, not the
watermark comparison — here it returns `true` although
`writeQueueSize = 200000` is far past `65536 * 2`. -/
theorem c6_backpressure_counterexample :
    (∃ st2, send stHighWater env0 (.str "x") .undefined .undefined .undefined =
      .ok true st2 [] []) ∧
    decide (stHighWater.writeQueueSize < 65536 * 2) = false :=
  ⟨⟨_, rfl⟩, rfl⟩

/-- C6 (amended): the backpressure signal of every send, handle-carrying
or not.  While connected, `send` delegates its return value to `_send`
(with the spread options); a `_send` that reaches the transport — no
backlog queue, or the plain ACK/NACK bypass — returns
`writeQueueSize < 65536 * 2` whatever the write outcome; a `_send` that is
enqueued instead returns `true` exactly when it became the first queued
entry, and the message is retained in the queue (not dropped); a
disconnected `send()` returns `false`. -/
theorem c6_backpressure_signal (st : ChanState) (env : WriteEnv)
    (message handle options callback : JSVal)
    (hc : st.connected = true)
    (hm : message.isUndefined = false) (hm2 : sendTypeOk message = true)
    (hh : truthy handle = true → (instanceType handle).isSome = true) :
    (isFunc handle = false → isFunc options = false →
      (options.isUndefined = true ∨ validObjectOk options = true) →
      send st env message handle options callback =
        _send st env message handle
          (JSVal.obj (fieldsOf options ++ [("swallowErrors", .bool false)]))
          callback) ∧
    (st.handleQueue = none →
      ∃ st2 sync deferred,
        _send st env message handle options callback =
          .ok (decide (st.writeQueueSize < 65536 * 2)) st2 sync deferred) ∧
    (∀ q, st.handleQueue = some q →
      (truthy handle = true ∨ isAckNackMsg message = false) →
      ∃ entry : QueuedSend,
        _send st env message handle options callback =
          .ok ((q.length + 1) == 1)
            { st with handleQueue := some (q ++ [entry]) } [] [] ∧
        entry.message = message) ∧
    (∀ q, st.handleQueue = some q → truthy handle = false →
      isAckNackMsg message = true →
      ∃ st2 sync deferred,
        _send st env message handle options callback =
          .ok (decide (st.writeQueueSize < 65536 * 2)) st2 sync deferred) ∧
    (∀ stD : ChanState, stD.connected = false →
      (options.isUndefined = true ∨ isFunc options = true ∨
        validObjectOk options = true ∨ isFunc handle = true) →
      ∃ deferred, send stD env message handle options callback =
        .ok false stD [] deferred) := by
  refine ⟨?_, ?_, ?_, ?_, ?_⟩
  · intro hfh hfo hsho
    unfold send sendChecked
    rcases hsho with h | h <;> simp [hfh, hfo, h, hc]
  · intro hq
    unfold _send
    cases htr : truthy handle with
    | false =>
      simp [hm, hm2, htr, hq]
      apply writePhase_ret
    | true =>
      obtain ⟨ty, hty⟩ := Option.isSome_iff_exists.mp (hh htr)
      cases hconv : convSendStrategy ty handle with
      | none =>
        simp [hm, hm2, htr, hty, hq, hconv]
        apply writePhase_ret
      | some n =>
        simp [hm, hm2, htr, hty, hq, hconv]
        apply writePhase_ret
  · intro q hq hcase
    unfold _send
    cases htr : truthy handle with
    | false =>
      have hmq : isAckNackMsg message = false := by
        rcases hcase with h | h
        · rw [htr] at h; cases h
        · exact h
      refine ⟨⟨message, .null,
        if typeof options == "boolean" then
          JSVal.obj [("swallowErrors", options)] else options,
        callback⟩, ?_, rfl⟩
      simp [hm, hm2, htr, hq, hmq, List.length_append]
    | true =>
      obtain ⟨ty, hty⟩ := Option.isSome_iff_exists.mp (hh htr)
      refine ⟨⟨message, handle,
        if typeof options == "boolean" then
          JSVal.obj [("swallowErrors", options)] else options,
        callback⟩, ?_, rfl⟩
      simp [hm, hm2, htr, hty, hq, List.length_append]
  · intro q hq htr hmq
    unfold _send
    simp [hm, hm2, htr, hq, hmq]
    apply writePhase_ret
  · intro stD hcD hsho
    unfold send sendChecked
    by_cases hfh : isFunc handle
    · exact ⟨[.callCallback handle (some .channelClosed)],
        by simp [hfh, hcD]⟩
    · by_cases hfo : isFunc options
      · exact ⟨[.callCallback options (some .channelClosed)],
          by simp [hfh, hfo, hcD]⟩
      · rcases hsho with h | h | h | h
        · exact ⟨if isFunc callback then
              [.callCallback callback (some .channelClosed)]
            else [.emitError .channelClosed], by simp [hfh, hfo, hcD, h]⟩
        · exact absurd h hfo
        · exact ⟨if isFunc callback then
              [.callCallback callback (some .channelClosed)]
            else [.emitError .channelClosed], by simp [hfh, hfo, hcD, h]⟩
        · exact absurd h hfh

/-- Witness for C6: the write path and the queued path, each exercised
both with a handle-carrying send (a `net.Socket` wrapper) and a plain
message, plus the ACK bypass and a disconnected send. -/
theorem c6_backpressure_signal_witness :
    stIdle.handleQueue = none ∧
    (∃ st2 sync deferred,
      _send stIdle env0 (.str "m") (.handle ⟨.netSocket, some 9⟩)
          .undefined .undefined =
        .ok (decide (stIdle.writeQueueSize < 65536 * 2)) st2 sync deferred) ∧
    stHighWater.handleQueue = some [] ∧
    (∃ entry : QueuedSend,
      _send stHighWater env0 (.str "m") (.handle ⟨.netSocket, some 9⟩)
          .undefined .undefined =
        .ok ((List.length ([] : List QueuedSend) + 1) == 1)
          { stHighWater with handleQueue := some ([] ++ [entry]) } [] [] ∧
      entry.message = .str "m") ∧
    (∃ entry : QueuedSend,
      _send stHighWater env0 (.str "m") .undefined .undefined .undefined =
        .ok ((List.length ([] : List QueuedSend) + 1) == 1)
          { stHighWater with handleQueue := some ([] ++ [entry]) } [] [] ∧
      entry.message = .str "m") ∧
    (∃ st2 sync deferred,
      _send stHighWater env0 ackMsgVal .undefined .undefined .undefined =
        .ok (decide (stHighWater.writeQueueSize < 65536 * 2)) st2 sync
          deferred) ∧
    (∃ deferred,
      send stDisc env0 (.str "m") .undefined .undefined .undefined =
        .ok false stDisc [] deferred) ∧
    send stIdle env0 (.str "m") (.handle ⟨.netSocket, some 9⟩)
        .undefined .undefined =
      _send stIdle env0 (.str "m") (.handle ⟨.netSocket, some 9⟩)
        (JSVal.obj (fieldsOf .undefined ++ [("swallowErrors", .bool false)]))
        .undefined := by
  have hA := c6_backpressure_signal stIdle env0 (.str "m")
    (.handle ⟨.netSocket, some 9⟩) .undefined .undefined rfl rfl rfl
    (fun _ => rfl)
  have hB := c6_backpressure_signal stHighWater env0 (.str "m")
    (.handle ⟨.netSocket, some 9⟩) .undefined .undefined rfl rfl rfl
    (fun _ => rfl)
  have hC := c6_backpressure_signal stHighWater env0 (.str "m") .undefined
    .undefined .undefined rfl rfl rfl (fun hcon => nomatch hcon)
  have hD := c6_backpressure_signal stHighWater env0 ackMsgVal .undefined
    .undefined .undefined rfl rfl rfl (fun hcon => nomatch hcon)
  exact ⟨rfl, hA.2.1 rfl, rfl,
    hB.2.2.1 [] rfl (Or.inl rfl),
    hC.2.2.1 [] rfl (Or.inr rfl),
    hD.2.2.2.1 [] rfl rfl rfl,
    hC.2.2.2.2 stDisc rfl (Or.inl rfl),
    hA.1 rfl rfl (Or.inl rfl)⟩

/-! Claim C1: serialization of sends behind a pending handle handshake. -/

/-- C1 counterexample: the claim's ACK/NACK exception is unqualified, but
a handle-carrying `send()` whose message has `cmd: "NODE_HANDLE_ACK"` is
still enqueued (the bypass only exists on the non-handle path): here such
a send during a pending handshake is appended to the backlog (no write
effect) instead of being written immediately. -/
theorem c1_ack_exception_counterexample :
    isAckNackMsg (.obj [("cmd", .str "NODE_HANDLE_ACK")]) = true ∧
    stPend.pendingMessage = some pend0 ∧
    ∃ q2 : List QueuedSend,
      send stPend env0 (.obj [("cmd", .str "NODE_HANDLE_ACK")])
          (.handle ⟨.netSocket, some 9⟩) .undefined .undefined =
        .ok true { stPend with handleQueue := some q2 } [] [] ∧
      q2.length = 1 :=
  ⟨rfl, rfl, ⟨_, rfl, rfl⟩⟩

/-- C1 (amended): while a handle handshake is pending (`_pendingMessage`
set, which implies the backlog queue exists), every further `_send` —
handle-carrying or not — is appended to the backlog instead of being
written, except a plain non-handle-carrying message whose `cmd` is
`NODE_HANDLE_ACK`/`NODE_HANDLE_NACK`, which is written immediately and
never queued; in every case the pending entry is left untouched, so at
most one handshake is outstanding. -/
theorem c1_backlog_serialization (st : ChanState) (env : WriteEnv)
    (q : List QueuedSend) (p : PendingMsg)
    (hp : st.pendingMessage = some p) (hq : st.handleQueue = some q)
    (henv : env.writeErr = 0) (ha : env.wasAsync = false)
    (message handle options callback : JSVal)
    (hm : message.isUndefined = false) (hm2 : sendTypeOk message = true)
    (hh : truthy handle = true → (instanceType handle).isSome = true) :
    ((truthy handle = true ∨ isAckNackMsg message = false) →
      ∃ entry : QueuedSend,
        _send st env message handle options callback =
          .ok ((q.length + 1) == 1)
            { st with handleQueue := some (q ++ [entry]) } [] [] ∧
        entry.message = message ∧ entry.callback = callback) ∧
    ((truthy handle = false ∧ isAckNackMsg message = true) →
      _send st env message handle options callback =
        .ok (decide (st.writeQueueSize < 65536 * 2)) st
          [.write message none] (cbEffOk callback)) := by
  constructor
  · intro hcase
    unfold _send
    cases htr : truthy handle with
    | false =>
      have hmq : isAckNackMsg message = false := by
        rcases hcase with h | h
        · rw [htr] at h; cases h
        · exact h
      refine ⟨⟨message, .null,
        if typeof options == "boolean" then
          JSVal.obj [("swallowErrors", options)] else options,
        callback⟩, ?_, rfl, rfl⟩
      simp [hm, hm2, htr, hq, hmq, List.length_append]
    | true =>
      obtain ⟨ty, hty⟩ := Option.isSome_iff_exists.mp (hh htr)
      refine ⟨⟨message, handle,
        if typeof options == "boolean" then
          JSVal.obj [("swallowErrors", options)] else options,
        callback⟩, ?_, rfl, rfl⟩
      simp [hm, hm2, htr, hty, hq, List.length_append]
  · rintro ⟨htr, hmq⟩
    unfold _send
    simp [hm, hm2, htr, hq, hmq, writePhase, writeSuccessState,
      queueInitState, writeFailCloseEffs, henv, ha]

/-- Witness for C1 at a concrete pending state. -/
theorem c1_backlog_serialization_witness :
    stPend.pendingMessage = some pend0 ∧ stPend.handleQueue = some [] ∧
    ∃ entry : QueuedSend,
      _send stPend env0 (.str "h") .undefined .undefined .undefined =
        .ok ((List.length ([] : List QueuedSend) + 1) == 1)
          { stPend with handleQueue := some ([] ++ [entry]) } [] [] ∧
      entry.message = .str "h" ∧ entry.callback = .undefined := by
  have h := (c1_backlog_serialization stPend env0 [] pend0 rfl rfl rfl rfl
    (.str "h") .undefined .undefined .undefined rfl rfl
    (fun hcon => nomatch hcon)).1 (Or.inr rfl)
  exact ⟨rfl, rfl, h⟩

/-! Claim C7: the receiver side of the handle handshake. -/

/-- The `NODE_HANDLE` envelope built by `_send` (source lines 219-223). -/
def handleEnvelope (ty : String) (m : JSVal) : JSVal :=
  .obj [("cmd", .str "NODE_HANDLE"), ("type", .str ty), ("msg", m)]

/-- An internal reply `target._send(msg, null, true)` writes unconditionally
(plain ACK/NACK messages bypass the backlog queue). -/
theorem internalAckSend_eval (st : ChanState) (env : WriteEnv) (msg : JSVal)
    (henv : env.writeErr = 0) (ha : env.wasAsync = false)
    (hundef : msg.isUndefined = false) (hobj : sendTypeOk msg = true)
    (hack : isAckNackMsg msg = true) :
    _send st env msg .null (.bool true) .undefined =
      .ok (decide (st.writeQueueSize < 65536 * 2)) st [.write msg none] [] := by
  unfold _send
  cases hqc : st.handleQueue <;>
    simp [hundef, hobj, hack, hqc, typeof, truthy, isFunc, writePhase,
      writeSuccessState, queueInitState, writeFailCloseEffs, henv, ha,
      cbEffOk]

/-- C7: on a `NODE_HANDLE` envelope with a raw handle delivered, the
receiver writes the `NODE_HANDLE_ACK` reply first and only then
reconstructs the wrapper via the registry's receive (`got`) strategy; with
no raw handle delivered it writes `NODE_HANDLE_NACK` and performs no
reconstruction. -/
theorem c7_handle_ack_order (st : ChanState) (env : WriteEnv)
    (ty : String) (m : JSVal) (h : Nat)
    (hty : gotRegistered ty = true) (henv : env.writeErr = 0)
    (ha : env.wasAsync = false) :
    onInternalMessage st env (handleEnvelope ty m) (some h) =
      .done st [.write ackMsgVal none, .reconstructHandle ty] [] ∧
    onInternalMessage st env (handleEnvelope ty m) none =
      .done st [.write nackMsgVal none] [] := by
  constructor
  · show replyAckAndReconstruct st env
      (getStrField (handleEnvelope ty m) "type") = _
    unfold replyAckAndReconstruct
    rw [show getStrField (handleEnvelope ty m) "type" = ty from rfl]
    rw [internalAckSend_eval st env ackMsgVal henv ha rfl rfl rfl]
    simp [hty]
  · show replyNack st env = _
    unfold replyNack
    rw [internalAckSend_eval st env nackMsgVal henv ha rfl rfl rfl]

/-- Witness for C7 at a concrete receiver state. -/
theorem c7_handle_ack_order_witness :
    gotRegistered "net.Socket" = true ∧
    onInternalMessage stIdle env0 (handleEnvelope "net.Socket" (.str "m"))
        (some 5) =
      .done stIdle [.write ackMsgVal none, .reconstructHandle "net.Socket"]
        [] ∧
    onInternalMessage stIdle env0 (handleEnvelope "net.Socket" (.str "m"))
        none =
      .done stIdle [.write nackMsgVal none] [] := by
  have hh := c7_handle_ack_order stIdle env0 "net.Socket" (.str "m") 5 rfl
    rfl rfl
  exact ⟨rfl, hh.1, hh.2⟩

/-! Claim C2: the sender side of NACK handling. -/

/-- C2: evaluating the `internalMessage` handler at its NACK inputs.  On a
first NACK (retransmissions 0, below the cap) the handler increments the
counter and calls `_send` again with the stored native handle — but the
`net.Native` `instanceof` branch is commented out in this repository, so
the retransmission attempt throws `ERR_INVALID_HANDLE_TYPE` instead of
rewriting the message: nothing is written and the exception escapes the
handler.  At the cap (retransmissions 3) the handler closes the handle,
emits the `SentHandleNotReceivedWarning` warning, and drains the backlog
without throwing, as the claim describes. -/
theorem c2_nack_retransmission_eval :
    onInternalMessage stPend env0 nackMsgVal none =
      .thrown .invalidHandleType stPendAfter [] [] ∧
    stPendAfter.pendingMessage = some pend1 ∧
    pend1.retransmissions = pend0.retransmissions + 1 ∧
    onInternalMessage stPendMax env0 nackMsgVal none =
      .done stCap [.closeHandle pend0.handle,
        .warn "SentHandleNotReceivedWarning"] [] :=
  ⟨rfl, rfl, rfl, rfl⟩

end ChildProcess


